import Mathlib

/-!
Shallow embedding of the `ee_partners` dashboard core: city normalization,
partner-record enhancement, filter-domain derivation, the filter pipeline
(`App.jsx`), and the treemap sizing/coloring/tooltip logic (`TreeMapChart.jsx`).

JavaScript numbers that can be `NaN` are modelled as `Option Int`
(`none` = `NaN`); strings are Lean `String`s; `null`/`undefined` string
slots are `Option String`.
-/

namespace EEPartners

/-! ### JavaScript string primitives -/

/-- Lowercasing of one character, modelling JavaScript `toLowerCase` on the
character ranges occurring in the dataset (ASCII, Latin-1 and Turkish
letters); in particular the dotted capital `İ` (U+0130) lowers to the two
code points `i` + combining dot above, exactly as in JavaScript. Characters
outside these ranges are returned unchanged. -/
def jsToLowerChar (c : Char) : List Char :=
  if c = 'İ' then ['i', '\u0307']
  else if ('A' ≤ c ∧ c ≤ 'Z') ∨ ('À' ≤ c ∧ c ≤ 'Þ' ∧ c ≠ '×') then
    [Char.ofNat (c.toNat + 32)]
  else if c = 'Ğ' then ['ğ']
  else if c = 'Ş' then ['ş']
  else [c]

/-- Concatenated per-character lowering of a character list. -/
def lowerList : List Char → List Char
  | [] => []
  | c :: cs => jsToLowerChar c ++ lowerList cs

/-- JavaScript `String.prototype.toLowerCase`. -/
def jsToLower (s : String) : String :=
  String.mk (lowerList s.data)

/-- Does `pre` occur as a leading segment of `l`? -/
def leadSeg : List Char → List Char → Bool
  | [], _ => true
  | _ :: _, [] => false
  | a :: as, b :: bs => a == b && leadSeg as bs

/-- Does `needle` occur as a contiguous segment of `l`? -/
def hasSeg : List Char → List Char → Bool
  | needle, [] => needle.isEmpty
  | needle, b :: bs => leadSeg needle (b :: bs) || hasSeg needle bs

/-- JavaScript `s.includes(sub)`: substring containment. -/
def jsIncludes (s sub : String) : Bool :=
  hasSeg sub.data s.data

/-! ### JavaScript `parseInt` -/

/-- Numeric value of a decimal digit character. -/
def digitVal (c : Char) : Nat := c.toNat - 48

/-- Consume a leading run of decimal digits, accumulating their value;
`none` means no digit was consumed yet. -/
def decRun : List Char → Option Nat → Option Nat
  | [], acc => acc
  | c :: cs, acc =>
    if c.isDigit then decRun cs (some ((acc.getD 0) * 10 + digitVal c)) else acc

/-- Numeric value of a hexadecimal digit character, if it is one. -/
def hexVal (c : Char) : Option Nat :=
  if c.isDigit then some (c.toNat - 48)
  else if 'a' ≤ c ∧ c ≤ 'f' then some (c.toNat - 87)
  else if 'A' ≤ c ∧ c ≤ 'F' then some (c.toNat - 55)
  else none

/-- Consume a leading run of hexadecimal digits, accumulating their value. -/
def hexRun : List Char → Option Nat → Option Nat
  | [], acc => acc
  | c :: cs, acc =>
    match hexVal c with
    | some v => hexRun cs (some ((acc.getD 0) * 16 + v))
    | none => acc

/-- JavaScript `parseInt(s)` (no explicit radix): skip leading whitespace,
read an optional sign, then either a `0x`/`0X`-prefixed hexadecimal digit
run or a decimal digit run; `none` models the `NaN` result when no digit
is found. -/
def jsParseInt (s : String) : Option Int :=
  let cs := s.data.dropWhile Char.isWhitespace
  let signed : Int × List Char :=
    match cs with
    | '-' :: rest => (-1, rest)
    | '+' :: rest => (1, rest)
    | _ => (1, cs)
  let body := signed.2
  let mag : Option Nat :=
    match body with
    | '0' :: c :: rest =>
      if c = 'x' ∨ c = 'X' then hexRun rest none else decRun body none
    | _ => decRun body none
  mag.map (fun n => signed.1 * n)

/-! ### City normalization (`normalizeCity` in `App.jsx`) -/

/-- The `normalizeCity` arrow function: a falsy argument (`null`,
`undefined`, or the empty string) yields `null`; otherwise the input is
trimmed and the İstanbul spelling variants are canonicalized. -/
def normalizeCity : Option String → Option String
  | none => none
  | some city =>
    if city = "" then none
    else
      let normalized := city.trim
      if jsToLower normalized = "istanbul" ∨ normalized = "İstanbul" then
        some "İstanbul"
      else some normalized

/-- Restatement of the specification sentence for `normalizeCity`, written
from the claim's words: null/undefined/empty input yields null; a trimmed
form equal to "istanbul" case-insensitively or to "İstanbul" exactly yields
the canonical "İstanbul"; any other input yields its trimmed form. -/
def normalizeCitySpec (city : Option String) : Option String :=
  match city with
  | none => none
  | some s =>
    if s = "" then none
    else if jsToLower s.trim = "istanbul" ∨ s.trim = "İstanbul" then
      some "İstanbul"
    else some s.trim

/-! ### Partner records and field derivation -/

/-- A raw partner record as it appears in the fetched JSON dataset; the
string-valued display fields may be absent. -/
structure RawPartner where
  name : String
  level : String
  city : Option String
  country : Option String
  references_count : Option String
  average_project_size : Option String
  large_project_size : Option String
  certified_experts_count : Option String
  district : Option String
deriving DecidableEq

/-- An enhanced partner record: the raw record (JavaScript object spread)
plus the derived numeric fields and the normalized display city. -/
structure Partner extends RawPartner where
  references : Option Int
  average_users : Option Int
  large_users : Option Int
  experts : Option Int
  displayCity : Option String
  districtValue : Int
deriving DecidableEq

/-- JavaScript `x || d` for an optional string `x`: the default is taken
when `x` is absent or empty (falsy). -/
def jsOrStr : Option String → String → String
  | none, d => d
  | some s, d => if s = "" then d else s

/-- JavaScript `x || 0` for a number `x` that may be `NaN`: `NaN`, `0`,
and `-0` are falsy, so the result is `0` in each of those cases. -/
def jsOrZero : Option Int → Int
  | none => 0
  | some n => if n = 0 then 0 else n

/-- First maximal run of decimal digits in a character list, modelling the
regular-expression match `/\d+/`. -/
def firstDigitRunList : List Char → Option (List Char)
  | [] => none
  | c :: cs =>
    if c.isDigit then some (c :: cs.takeWhile Char.isDigit)
    else firstDigitRunList cs

/-- JavaScript `s.match(/\d+/)?.[0]`. -/
def firstDigitRun (s : String) : Option String :=
  (firstDigitRunList s.data).map String.mk

/-- The `enhancedPartners` mapping in the data loader: derive numeric
fields from the display strings and normalize the city, substituting the
country for the city when the raw city is the literal `"Türkiye"`.
A `district` that is absent corresponds to `parseInt(undefined)`, i.e.
`parseInt("undefined")`, in JavaScript. -/
def enhancePartner (p : RawPartner) : Partner :=
  let rawCity := if p.city = some "Türkiye" then p.country else p.city
  { toRawPartner := p
    average_users := jsParseInt (jsOrStr (p.average_project_size.bind firstDigitRun) "0")
    large_users := jsParseInt (jsOrStr (p.large_project_size.bind firstDigitRun) "0")
    references := jsParseInt (jsOrStr p.references_count "0")
    experts := jsParseInt (jsOrStr p.certified_experts_count "0")
    displayCity := normalizeCity rawCity
    districtValue := jsOrZero (match p.district with
      | none => jsParseInt "undefined"
      | some s => jsParseInt s) }

/-! ### Filter state and the filter pipeline (`App.jsx`) -/

/-- The `filters` state object. `minReferences` and `maxReferences` are
JavaScript numbers, so they may be `NaN`; `selectedCities` is an array
whose membership test (`includes`) is applied to the nullable
`displayCity`, hence its element type is `Option String`. -/
structure Filters where
  levels : List String
  minReferences : Option Int
  maxReferences : Option Int
  selectedCities : List (Option String)
deriving DecidableEq

/-- The initial `useState` value of the `filters` object. -/
def initialFilters : Filters :=
  { levels := ["Gold", "Silver", "Ready"]
    minReferences := some 0
    maxReferences := some 100
    selectedCities := [] }

/-- JavaScript `<=` on numbers that may be `NaN`: any comparison with
`NaN` is false. -/
def jsNumLE : Option Int → Option Int → Bool
  | some a, some b => a ≤ b
  | _, _ => false

/-- JavaScript `Math.max` on two numbers that may be `NaN`: `NaN`
propagates. -/
def jsMax2 : Option Int → Option Int → Option Int
  | some a, some b => some (max a b)
  | _, _ => none

/-- `Math.max(...enhancedPartners.map(p => p.references), 100)` from the
data loader. -/
def maxRefs (ps : List Partner) : Option Int :=
  (ps.map Partner.references).foldr jsMax2 (some 100)

/-- Accumulating pass behind `setDedup`: keep each element not yet seen,
in first-occurrence order, exactly as iterating a JavaScript `Set`. -/
def setDedupAux [DecidableEq α] (seen : List α) : List α → List α
  | [] => []
  | x :: xs =>
    if x ∈ seen then setDedupAux seen xs
    else x :: setDedupAux (x :: seen) xs

/-- `[...new Set(l)]`: distinct elements in first-occurrence order. -/
def setDedup [DecidableEq α] (l : List α) : List α :=
  setDedupAux [] l

/-- JavaScript `Array.prototype.filter(Boolean)` over nullable strings:
`null`, `undefined`, and the empty string are dropped. -/
def truthyStrings (l : List (Option String)) : List String :=
  l.filterMap (fun o =>
    match o with
    | some s => if s = "" then none else some s
    | none => none)

/-- String order used to model the default JavaScript `Array.sort()` on
the city names of the dataset (lexicographic comparison of code points,
which agrees with UTF-16 code-unit order on these strings). JavaScript
sort is a stable sort, and for this total order any stable sort computes
the same list, so it is modelled by insertion sort. -/
def jsSortStrings (l : List String) : List String :=
  List.insertionSort (· ≤ ·) l

/-- The `uniqueCities` computation of the data loader:
`[...new Set(enhancedPartners.map(p => p.displayCity))].filter(Boolean).sort()`. -/
def uniqueCities (ps : List Partner) : List String :=
  jsSortStrings (truthyStrings (setDedup (ps.map Partner.displayCity)))

/-- The `setFilters` update performed after the dataset loads: keep the
previous `levels` and bounds, set `maxReferences` and `selectedCities`
from the dataset. -/
def loadedFilters (ps : List Partner) : Filters :=
  { initialFilters with
    maxReferences := maxRefs ps
    selectedCities := (uniqueCities ps).map some }

/-- The search predicate of the filter effect, applied to the lowercased
query: the lowercased name, or the lowercased display city when present,
contains the query. -/
def searchPred (query : String) (p : Partner) : Bool :=
  jsIncludes (jsToLower p.name) query ||
    (match p.displayCity with
     | some c => jsIncludes (jsToLower c) query
     | none => false)

/-- Search stage of the filter effect: skipped when the query is empty
(falsy). -/
def searchFilter (searchQuery : String) (l : List Partner) : List Partner :=
  if searchQuery = "" then l
  else l.filter (searchPred (jsToLower searchQuery))

/-- Level stage of the filter effect: applied only when at least one tier
is selected. -/
def levelFilter (f : Filters) (l : List Partner) : List Partner :=
  if 0 < f.levels.length then l.filter (fun p => f.levels.contains p.level)
  else l

/-- References stage of the filter effect (dual slider bounds, always
applied). -/
def refFilter (f : Filters) (l : List Partner) : List Partner :=
  l.filter (fun p =>
    jsNumLE f.minReferences p.references && jsNumLE p.references f.maxReferences)

/-- City stage of the filter effect: always applied, so an empty selection
shows nothing. -/
def cityFilter (f : Filters) (l : List Partner) : List Partner :=
  l.filter (fun p => f.selectedCities.contains p.displayCity)

/-- The filter effect of `App.jsx`: the visible subset recomputed from the
partner list, the search query and the filter state (its exact dependency
array). -/
def applyFilters (partners : List Partner) (searchQuery : String)
    (f : Filters) : List Partner :=
  cityFilter f (refFilter f (levelFilter f (searchFilter searchQuery partners)))

/-! ### Treemap chart (`TreeMapChart.jsx`) -/

/-- An HSL color. Lightness is rational because it is computed by real
division from the shade ratio. -/
structure HSL where
  h : ℚ
  s : ℚ
  l : ℚ
deriving DecidableEq

/-- The `COLORS` palette keyed by level. -/
def COLORS (level : String) : Option HSL :=
  if level = "Gold" then some ⟨28, 80, 52⟩
  else if level = "Silver" then some ⟨204, 70, 53⟩
  else if level = "Ready" then some ⟨145, 63, 42⟩
  else none

/-- The `COLORS.Ready` fallback color. -/
def readyColor : HSL := ⟨145, 63, 42⟩

/-- `getColorWithShade(level, value, maxValue)`: the base hue/saturation
come from the level's palette entry (falling back to Ready), and the
lightness is raised by up to 12 points as the value's share of the
maximum falls. -/
def getColorWithShade (level : String) (value maxValue : ℚ) : HSL :=
  let base := (COLORS level).getD readyColor
  let ratio := min (value / max maxValue 1) 1
  let lightness := base.l + (1 - ratio) * 12
  ⟨base.h, base.s, lightness⟩

/-- The `maxMetric` memo of `TreeMapChart`:
`Math.max(...partners.map(p => p.references), 1)`. -/
def maxMetric (partners : List Partner) : Option Int :=
  (partners.map Partner.references).foldr jsMax2 (some 1)

/-- One element of the `chartData` array handed to the `Treemap`
component. -/
structure ChartDatum where
  name : String
  size : Option Int
  level : String
  references : Option Int
  average_users : Option Int
  districtValue : Int
  large_users : Option Int
  experts : Option Int
  displayCity : Option String
  index : Nat
  maxMetric : Option Int
deriving DecidableEq

/-- The `sizeValue` computed per partner in `chartData`: the selected
metric clamped below at 1 via `Math.max`. -/
def sizeValue (areaMetric : String) (p : Partner) : Option Int :=
  if areaMetric = "district" then some (max p.districtValue 1)
  else jsMax2 p.references (some 1)

/-- The object literal built for one partner in `chartData`. -/
def mkDatum (areaMetric : String) (mm : Option Int) (p : Partner)
    (index : Nat) : ChartDatum :=
  { name := p.name
    size := sizeValue areaMetric p
    level := p.level
    references := p.references
    average_users := p.average_users
    districtValue := p.districtValue
    large_users := p.large_users
    experts := p.experts
    displayCity := p.displayCity
    index := index
    maxMetric := mm }

/-- The `.map((p, index) => ...)` pass of `chartData`, carrying the
running index. -/
def chartEntriesAux (areaMetric : String) (mm : Option Int) (i : Nat) :
    List Partner → List ChartDatum
  | [] => []
  | p :: ps => mkDatum areaMetric mm p i :: chartEntriesAux areaMetric mm (i + 1) ps

/-- Weak order modelling `.sort((a, b) => b.size - a.size)`: `a` may stay
before `b` when `b.size - a.size <= 0`, i.e. on descending sizes; a `NaN`
size makes the comparator return `NaN`, which the sort treats as 0
(equal), so it compares as both-before-both. -/
def chartLe (a b : ChartDatum) : Bool :=
  match a.size, b.size with
  | some x, some y => y ≤ x
  | _, _ => true

/-- Proposition form of `chartLe` for the sorting function. -/
def chartOrd (a b : ChartDatum) : Prop := chartLe a b = true

instance : DecidableRel chartOrd := fun a b => by
  unfold chartOrd; infer_instance

/-- The `chartData` memo: empty when no partner is visible, otherwise the
per-partner data objects sorted by descending size. JavaScript sort is
stable, so it is modelled by insertion sort over `chartOrd`. -/
def chartData (partners : List Partner) (areaMetric : String) : List ChartDatum :=
  if partners.length = 0 then []
  else List.insertionSort chartOrd
    (chartEntriesAux areaMetric (maxMetric partners) 0 partners)

/-- The tooltip placement of `handleMouseMove`, as a function of the
cursor position and the viewport dimensions (tooltip size constants 220
by 180): offset 16 px right/below, flipped to 16 px beyond the opposite
side of the cursor independently per axis near the viewport edges. -/
def tooltipPos (clientX clientY viewportWidth viewportHeight : ℚ) : ℚ × ℚ :=
  let tooltipWidth : ℚ := 220
  let tooltipHeight : ℚ := 180
  let posX0 := clientX + 16
  let posY0 := clientY + 16
  let posX := if clientX + tooltipWidth + 30 > viewportWidth
    then clientX - tooltipWidth - 16 else posX0
  let posY := if clientY + tooltipHeight + 30 > viewportHeight
    then clientY - tooltipHeight - 16 else posY0
  (posX, posY)

/-- Restatement of the tooltip-placement sentence of the specification,
written from the claim's words: the tooltip follows the cursor at a fixed
16-pixel offset below and to the right, except that each axis flips
independently when the cursor position plus the tooltip extent plus 30
would exceed the viewport. -/
def tooltipPosSpec (cx cy vw vh : ℚ) : ℚ × ℚ :=
  (if cx + 220 + 30 > vw then cx - 220 - 16 else cx + 16,
   if cy + 180 + 30 > vh then cy - 180 - 16 else cy + 16)

/-! ### Concrete records used by counterexamples and witnesses -/

/-- A raw record with every optional field absent. -/
def baseRaw : RawPartner :=
  { name := "", level := "", city := none, country := none,
    references_count := none, average_project_size := none,
    large_project_size := none, certified_experts_count := none,
    district := none }

/-- An enhanced partner built directly from its derived fields. -/
def mkPartner (name level : String) (refs : Option Int)
    (city : Option String) (dv : Int) : Partner :=
  { toRawPartner := { baseRaw with name := name, level := level }
    references := refs
    average_users := some 0
    large_users := some 0
    experts := some 0
    displayCity := city
    districtValue := dv }

/-- Partner whose name is upper case. -/
def pUpper : Partner := mkPartner "AB" "Gold" (some 5) (some "X") 0

/-- Partner whose name is lower case and whose tier is not selected in
`fC1`. -/
def pLowerSilver : Partner := mkPartner "ab" "Silver" (some 5) (some "X") 0

/-- A filter state selecting only the Gold tier. -/
def fC1 : Filters :=
  { levels := ["Gold"], minReferences := some 0, maxReferences := some 10,
    selectedCities := [some "X"] }

/-- A filter state with no tier selected. -/
def fNoLevels : Filters :=
  { levels := [], minReferences := some 0, maxReferences := some 10,
    selectedCities := [some "X"] }

/-- A raw record whose `references_count` is present but not parsable as
an integer. -/
def rawUnparsable : RawPartner :=
  { baseRaw with name := "Acme", level := "Gold", references_count := some "abc" }

/-- Partner with `NaN` references and an empty (but non-null) display
city, as produced by an unparsable `references_count` and a
whitespace-only raw city. -/
def pNaNCity : Partner := mkPartner "N" "Gold" none (some "") 0

/-- Partner with numeric references and a regular city. -/
def pAnkara : Partner := mkPartner "B" "Silver" (some 50) (some "Ankara") 0

/-- Dataset exercising the `NaN` maximum and the empty-string city. -/
def psC4 : List Partner := [pNaNCity, pAnkara]

/-- Partner whose references value is zero. -/
def pZeroRef : Partner := mkPartner "Z" "Gold" (some 0) (some "X") 0

/-- Partner whose references value is five. -/
def pFiveRef : Partner := mkPartner "F" "Silver" (some 5) (some "X") 10

/-- Dataset exercising the zero-metric treemap size. -/
def psC5 : List Partner := [pZeroRef, pFiveRef]

/-! ### Claim-side predicates for the filter pipeline -/

/-- The visibility predicate exactly as the claim about the filter
pipeline states it: if the search query is non-empty the partner's name or
normalized city contains the lowercased query, the references value lies
within the bounds, and the normalized city is a member of the selected
cities. (No tier criterion, and the name and city are not lowercased.) -/
def claimC1Pred (searchQuery : String) (f : Filters) (p : Partner) : Bool :=
  (decide (searchQuery = "") ||
    (jsIncludes p.name (jsToLower searchQuery) ||
      (match p.displayCity with
       | some c => jsIncludes c (jsToLower searchQuery)
       | none => false))) &&
  (jsNumLE f.minReferences p.references && jsNumLE p.references f.maxReferences) &&
  f.selectedCities.contains p.displayCity

/-- The visibility predicate as amended: the lowercased name or lowercased
normalized city contains the lowercased query when the query is non-empty;
the tier criterion applies whenever the selected tier list is non-empty;
the references bounds and the city membership are as in the claim. -/
def amendedC1Pred (searchQuery : String) (f : Filters) (p : Partner) : Bool :=
  (decide (searchQuery = "") || searchPred (jsToLower searchQuery) p) &&
  (decide (f.levels = []) || f.levels.contains p.level) &&
  (jsNumLE f.minReferences p.references && jsNumLE p.references f.maxReferences) &&
  f.selectedCities.contains p.displayCity

end EEPartners

namespace EEPartners

/-! ### Stage lemmas for the filter pipeline -/

lemma searchFilter_eq (q : String) (l : List Partner) :
    searchFilter q l =
      l.filter (fun p => decide (q = "") || searchPred (jsToLower q) p) := by
  unfold searchFilter
  by_cases hq : q = "" <;> simp [hq]

lemma levelFilter_eq (f : Filters) (l : List Partner) :
    levelFilter f l =
      l.filter (fun p => decide (f.levels = []) || f.levels.contains p.level) := by
  unfold levelFilter
  cases h : f.levels <;> simp [h]

/-! ### C1: visibility predicate of the filter pipeline -/

/-- C1, counterexample: the visible subset computed by the pipeline is not
the subset satisfying the claim's three criteria. The pipeline also
applies the tier criterion (dropping `pLowerSilver`, whose tier is not
selected) and matches the search case-insensitively (keeping `pUpper`,
whose upper-case name contains the query only after lowercasing). -/
theorem applyFilters_ne_claimC1 :
    applyFilters [pUpper, pLowerSilver] "ab" fC1 ≠
      [pUpper, pLowerSilver].filter (claimC1Pred "ab" fC1) := by decide

/-- C1 (amended): for every partner list, search query and filter state,
the visible subset computed by the filter pipeline equals the partners
satisfying the conjunction of all active criteria: if the search query is
non-empty, the partner's lowercased name or lowercased normalized city
contains the lowercased query; when the selected tier list is non-empty,
the partner's level is a member of it; the references value lies within
[minReferences, maxReferences] inclusive; and the normalized city is a
member of selectedCities. The pipeline is the recomputation performed
whenever the partner data, the query, or the filter state changes. -/
theorem applyFilters_eq_amendedC1 (partners : List Partner) (q : String)
    (f : Filters) :
    applyFilters partners q f = partners.filter (amendedC1Pred q f) := by
  unfold applyFilters cityFilter refFilter
  rw [searchFilter_eq, levelFilter_eq]
  simp only [List.filter_filter]
  apply List.filter_congr
  intro p _
  simp only [amendedC1Pred]
  ac_rfl

/-! ### C2: city normalization -/

/-- C2: `normalizeCity` maps every raw city string to its canonical
display name exactly as the specification describes: null, undefined, or
empty input yields null; a trimmed form equal to "istanbul"
case-insensitively (under JavaScript lowercasing) or equal to "İstanbul"
exactly yields the canonical "İstanbul"; every other input yields its
trimmed form unchanged. -/
theorem normalizeCity_eq_spec (c : Option String) :
    normalizeCity c = normalizeCitySpec c := by
  cases c with
  | none => rfl
  | some s => rfl

/-! ### C3: derivation of numeric fields -/

/-- C3, counterexample: a present but unparsable `references_count` yields
`NaN` (modelled by `none`), not the claimed default 0. -/
theorem enhance_unparsable_refs_nan :
    (enhancePartner rawUnparsable).references = none ∧
    (enhancePartner rawUnparsable).references ≠ some 0 := by decide

lemma firstDigitRunList_ne_nil {cs : List Char} {l : List Char}
    (h : firstDigitRunList cs = some l) : l ≠ [] := by
  induction cs with
  | nil => simp [firstDigitRunList] at h
  | cons c cs ih =>
    unfold firstDigitRunList at h
    split at h
    · injection h with h; subst h; simp
    · exact ih h

lemma firstDigitRun_ne_empty {s : String} {run : String}
    (h : firstDigitRun s = some run) : run ≠ "" := by
  unfold firstDigitRun at h
  cases hl : firstDigitRunList s.data with
  | none => rw [hl] at h; simp at h
  | some l =>
    rw [hl] at h
    simp at h
    intro hrun
    apply firstDigitRunList_ne_nil hl
    have hdata : run.data = l := by rw [← h]
    rw [hrun] at hdata
    simpa using hdata.symm

lemma jsParseInt_zero : jsParseInt "0" = some 0 := by decide

lemma parse_or_zero (x : Option String) :
    jsParseInt (jsOrStr x "0") =
      (match x with
       | none => some 0
       | some s => if s = "" then some 0 else jsParseInt s) := by
  cases x with
  | none => exact jsParseInt_zero
  | some s =>
    by_cases hs : s = "" <;> simp [jsOrStr, hs, jsParseInt_zero]

/-- C3 (amended): the data loader derives each numeric field from the
display strings: `references` and `experts` are the integer parses of
their source fields, defaulting to 0 when the field is absent or empty
but NaN when it is present and unparsable; `average_users` and
`large_users` are the integer parses of the first run of digits in their
source fields, defaulting to 0 when no digits are found; `districtValue`
is the integer parse of `district` with 0 for absent or unparsable input;
and `displayCity` is the normalized city, with the country substituted
for the city when the raw city equals "Türkiye". -/
theorem enhancePartner_spec (p : RawPartner) :
    (enhancePartner p).name = p.name ∧
    (enhancePartner p).level = p.level ∧
    (enhancePartner p).references =
      (match p.references_count with
       | none => some 0
       | some s => if s = "" then some 0 else jsParseInt s) ∧
    (enhancePartner p).experts =
      (match p.certified_experts_count with
       | none => some 0
       | some s => if s = "" then some 0 else jsParseInt s) ∧
    (enhancePartner p).average_users =
      (match p.average_project_size.bind firstDigitRun with
       | none => some 0
       | some run => jsParseInt run) ∧
    (enhancePartner p).large_users =
      (match p.large_project_size.bind firstDigitRun with
       | none => some 0
       | some run => jsParseInt run) ∧
    (enhancePartner p).districtValue =
      (match p.district with
       | none => 0
       | some s => jsOrZero (jsParseInt s)) ∧
    (enhancePartner p).displayCity =
      normalizeCity (if p.city = some "Türkiye" then p.country else p.city) := by
  refine ⟨rfl, rfl, ?_, ?_, ?_, ?_, ?_, rfl⟩
  · exact parse_or_zero p.references_count
  · exact parse_or_zero p.certified_experts_count
  · show jsParseInt (jsOrStr (p.average_project_size.bind firstDigitRun) "0") = _
    cases hb : p.average_project_size.bind firstDigitRun with
    | none => exact jsParseInt_zero
    | some run =>
      have hne : run ≠ "" := by
        cases ha : p.average_project_size with
        | none => rw [ha] at hb; simp at hb
        | some s =>
          rw [ha] at hb; simp at hb
          exact firstDigitRun_ne_empty hb
      simp [jsOrStr, hne]
  · show jsParseInt (jsOrStr (p.large_project_size.bind firstDigitRun) "0") = _
    cases hb : p.large_project_size.bind firstDigitRun with
    | none => exact jsParseInt_zero
    | some run =>
      have hne : run ≠ "" := by
        cases ha : p.large_project_size with
        | none => rw [ha] at hb; simp at hb
        | some s =>
          rw [ha] at hb; simp at hb
          exact firstDigitRun_ne_empty hb
      simp [jsOrStr, hne]
  · show jsOrZero (match p.district with
      | none => jsParseInt "undefined"
      | some s => jsParseInt s) = _
    cases p.district with
    | none => decide
    | some s => rfl

/-! ### C4: filter domains derived from the dataset -/

/-- C4, counterexample: on a dataset containing a partner with `NaN`
references and a partner with an empty-string display city, the derived
`maxReferences` is `NaN` rather than the claimed maximum-or-100, and the
initial selected cities omit the empty (non-null) city rather than
listing every non-null normalized city. -/
theorem loadedFilters_ne_claimC4 :
    (loadedFilters psC4).maxReferences ≠ some 100 ∧
    (loadedFilters psC4).selectedCities ≠ [some "", some "Ankara"] := by decide

lemma foldr_jsMax2_of_isSome (l : List (Option Int)) (b : Int)
    (h : ∀ x ∈ l, x.isSome) :
    l.foldr jsMax2 (some b) = some (l.foldr (fun x acc => max (x.getD 0) acc) b) := by
  induction l with
  | nil => rfl
  | cons x xs ih =>
    have hx : x.isSome := h x (List.mem_cons_self x xs)
    obtain ⟨v, rfl⟩ := Option.isSome_iff_exists.mp hx
    rw [List.foldr_cons, ih (fun y hy => h y (List.mem_cons_of_mem _ hy))]
    rfl

lemma le_foldr_max {α : Type} (g : α → Int) (l : List α) (b : Int) :
    b ≤ l.foldr (fun x acc => max (g x) acc) b := by
  induction l with
  | nil => exact le_refl b
  | cons x xs ih => exact le_trans ih (le_max_right _ _)

lemma mem_setDedupAux [DecidableEq α] (x : α) :
    ∀ (l seen : List α), x ∈ setDedupAux seen l ↔ x ∈ l ∧ x ∉ seen := by
  intro l
  induction l with
  | nil => intro seen; simp [setDedupAux]
  | cons y ys ih =>
    intro seen
    unfold setDedupAux
    by_cases hy : y ∈ seen
    · rw [if_pos hy, ih]
      constructor
      · rintro ⟨hxy, hxs⟩; exact ⟨List.mem_cons_of_mem y hxy, hxs⟩
      · rintro ⟨hxy, hxs⟩
        rcases List.mem_cons.mp hxy with rfl | hmem
        · exact absurd hy hxs
        · exact ⟨hmem, hxs⟩
    · rw [if_neg hy]
      constructor
      · intro hmem
        rcases List.mem_cons.mp hmem with rfl | hmem
        · exact ⟨List.mem_cons_self _ _, hy⟩
        · rcases (ih (y :: seen)).mp hmem with ⟨hxy, hxs⟩
          refine ⟨List.mem_cons_of_mem y hxy, fun hc => hxs (List.mem_cons_of_mem y hc)⟩
      · rintro ⟨hxy, hxs⟩
        rcases List.mem_cons.mp hxy with rfl | hmem
        · exact List.mem_cons_self x _
        · by_cases hxy' : x = y
          · subst hxy'; exact List.mem_cons_self x _
          · exact List.mem_cons_of_mem y
              ((ih (y :: seen)).mpr ⟨hmem, by simp [hxy', hxs]⟩)

lemma mem_setDedup [DecidableEq α] (x : α) (l : List α) :
    x ∈ setDedup l ↔ x ∈ l := by
  unfold setDedup
  rw [mem_setDedupAux]
  simp

lemma setDedupAux_nodup [DecidableEq α] :
    ∀ (l seen : List α), (setDedupAux seen l).Nodup := by
  intro l
  induction l with
  | nil => intro seen; simp [setDedupAux]
  | cons y ys ih =>
    intro seen
    unfold setDedupAux
    by_cases hy : y ∈ seen
    · rw [if_pos hy]; exact ih seen
    · rw [if_neg hy]
      refine List.nodup_cons.mpr ⟨?_, ih (y :: seen)⟩
      intro hc
      exact ((mem_setDedupAux y ys (y :: seen)).mp hc).2 (List.mem_cons_self y seen)

lemma setDedup_nodup [DecidableEq α] (l : List α) : (setDedup l).Nodup :=
  setDedupAux_nodup l []

lemma truthyStrings_nodup {l : List (Option String)} (h : l.Nodup) :
    (truthyStrings l).Nodup := by
  refine List.Nodup.filterMap ?_ h
  intro a a' b hb hb'
  have ha : a = some b := by
    cases a with
    | none => simp at hb
    | some s =>
      simp only [Option.mem_def] at hb
      split at hb
      · exact absurd hb (by simp)
      · injection hb with hb; rw [hb]
  have ha' : a' = some b := by
    cases a' with
    | none => simp at hb'
    | some s =>
      simp only [Option.mem_def] at hb'
      split at hb'
      · exact absurd hb' (by simp)
      · injection hb' with hb'; rw [hb']
  rw [ha, ha']

lemma mem_truthyStrings {l : List (Option String)} {c : String} :
    c ∈ truthyStrings l ↔ c ≠ "" ∧ some c ∈ l := by
  unfold truthyStrings
  rw [List.mem_filterMap]
  constructor
  · rintro ⟨a, ha, hfa⟩
    cases a with
    | none => simp at hfa
    | some s =>
      dsimp at hfa
      split at hfa
      · exact absurd hfa (by simp)
      · injection hfa with hfa
        subst hfa
        exact ⟨by assumption, ha⟩
  · rintro ⟨hne, hmem⟩
    exact ⟨some c, hmem, by simp [hne]⟩

/-- C4 (amended): after the dataset loads, the derived filter domains are:
`maxReferences` is the maximum references value over all partners but
never less than 100, provided every references value is numeric (with a
`NaN` reference it is `NaN`); `selectedCities` is initialized to the
sorted duplicate-free list of the non-null, non-empty normalized city
names occurring in the dataset, all initially selected; and the tier
domain stays exactly Gold, Silver, Ready, all three initially selected. -/
theorem loadedFilters_spec (ps : List Partner) :
    ((∀ p ∈ ps, (p.references).isSome) →
      (loadedFilters ps).maxReferences =
        some ((ps.map (fun p => (p.references).getD 0)).foldr max 100) ∧
      100 ≤ (ps.map (fun p => (p.references).getD 0)).foldr max 100) ∧
    (loadedFilters ps).levels = ["Gold", "Silver", "Ready"] ∧
    List.Sorted (· ≤ ·) (uniqueCities ps) ∧
    (uniqueCities ps).Nodup ∧
    (∀ c : String, c ∈ uniqueCities ps ↔
      c ≠ "" ∧ some c ∈ ps.map Partner.displayCity) ∧
    (loadedFilters ps).selectedCities = (uniqueCities ps).map some := by
  refine ⟨?_, rfl, ?_, ?_, ?_, rfl⟩
  · intro h
    have hall : ∀ x ∈ ps.map Partner.references, x.isSome := by
      intro x hx
      rcases List.mem_map.mp hx with ⟨p, hp, rfl⟩
      exact h p hp
    have heq := foldr_jsMax2_of_isSome (ps.map Partner.references) 100 hall
    constructor
    · show maxRefs ps = _
      unfold maxRefs
      rw [heq, List.foldr_map, List.foldr_map]
    · rw [List.foldr_map]
      exact le_foldr_max (fun p : Partner => p.references.getD 0) ps 100
  · exact List.sorted_insertionSort (· ≤ ·) _
  · have hperm := List.perm_insertionSort (α := String) (· ≤ ·)
      (truthyStrings (setDedup (ps.map Partner.displayCity)))
    exact hperm.nodup_iff.mpr (truthyStrings_nodup (setDedup_nodup _))
  · intro c
    show c ∈ jsSortStrings _ ↔ _
    unfold jsSortStrings
    rw [List.mem_insertionSort, mem_truthyStrings, mem_setDedup]

/-- C4, witness: the amended statement applied to the one-partner dataset
`[pAnkara]`, whose references value is numeric. -/
theorem loadedFilters_spec_w :
    (∀ p ∈ [pAnkara], (p.references).isSome) ∧
    (loadedFilters [pAnkara]).maxReferences =
      some (([pAnkara].map (fun p => (p.references).getD 0)).foldr max 100) ∧
    100 ≤ ([pAnkara].map (fun p => (p.references).getD 0)).foldr max 100 ∧
    List.Sorted (· ≤ ·) (uniqueCities [pAnkara]) :=
  ⟨by decide,
   ((loadedFilters_spec [pAnkara]).1 (by decide)).1,
   ((loadedFilters_spec [pAnkara]).1 (by decide)).2,
   (loadedFilters_spec [pAnkara]).2.2.1⟩

/-! ### C5: treemap sizing -/

/-- C5, counterexample: a partner's rectangle size is not its metric
value; the zero-reference partner gets size 1 from the `Math.max(value, 1)`
clamp, so the 0 : 5 ratio of metric values is not preserved. -/
theorem chartData_size_ne_claimC5 :
    (chartData psC5 "references").map ChartDatum.size ≠
      (chartData psC5 "references").map ChartDatum.references := by decide

lemma mem_chartEntriesAux {metric : String} {mm : Option Int} {d : ChartDatum} :
    ∀ {l : List Partner} {i : Nat}, d ∈ chartEntriesAux metric mm i l →
      ∃ p ∈ l, ∃ j, d = mkDatum metric mm p j := by
  intro l
  induction l with
  | nil => intro i h; simp [chartEntriesAux] at h
  | cons p ps ih =>
    intro i h
    rcases List.mem_cons.mp h with rfl | hmem
    · exact ⟨p, List.mem_cons_self _ _, i, rfl⟩
    · rcases ih hmem with ⟨p', hp', j, hd⟩
      exact ⟨p', List.mem_cons_of_mem _ hp', j, hd⟩

/-- C5 (amended): the treemap data is a permutation (descending-size sort)
of one entry per visible partner, and each entry's size is the selected
metric clamped below at 1 — `Math.max(districtValue, 1)` when the metric
is district, `Math.max(references, 1)` otherwise — so sizes equal metric
values, and ratios are preserved, exactly for partners whose metric value
is at least 1; a partner with metric value 0 receives size 1. -/
theorem chartData_spec (ps : List Partner) (metric : String) :
    List.Perm (chartData ps metric) (chartEntriesAux metric (maxMetric ps) 0 ps) ∧
    ∀ d ∈ chartData ps metric,
      d.size = (if metric = "district" then some (max d.districtValue 1)
                else jsMax2 d.references (some 1)) ∧
      (∀ v : Int, metric ≠ "district" → d.references = some v → 1 ≤ v →
        d.size = some v) := by
  have hmem : ∀ d ∈ chartData ps metric,
      ∃ p ∈ ps, ∃ j, d = mkDatum metric (maxMetric ps) p j := by
    intro d hd
    unfold chartData at hd
    split at hd
    · simp at hd
    · exact mem_chartEntriesAux ((List.mem_insertionSort chartOrd).mp hd)
  constructor
  · unfold chartData
    split
    · have hnil : ps = [] := List.length_eq_zero.mp (by omega)
      subst hnil
      exact List.Perm.refl _
    · exact List.perm_insertionSort chartOrd _
  · intro d hd
    rcases hmem d hd with ⟨p, _, j, rfl⟩
    constructor
    · show sizeValue metric p = _
      unfold sizeValue
      rfl
    · intro v hm hv h1
      show sizeValue metric p = some v
      unfold sizeValue
      rw [if_neg hm]
      have hpv : p.references = some v := hv
      rw [hpv]
      show some (max v 1) = some v
      rw [max_eq_left h1]

/-- C5, witness: in the two-partner dataset `psC5` under the references
metric, the entry for the five-reference partner is in the chart data and
its size equals its references value 5. -/
theorem chartData_spec_w :
    (mkDatum "references" (maxMetric psC5) pFiveRef 1 ∈ chartData psC5 "references") ∧
    ("references" : String) ≠ "district" ∧
    (mkDatum "references" (maxMetric psC5) pFiveRef 1).references = some 5 ∧
    (1 : Int) ≤ 5 ∧
    (mkDatum "references" (maxMetric psC5) pFiveRef 1).size = some 5 :=
  ⟨by decide, by decide, by decide, by decide,
   ((chartData_spec psC5 "references").2 _ (by decide)).2 5 (by decide)
     (by decide) (by decide)⟩

/-! ### C6: reference-driven coloring -/

/-- C6: for every tier and dataset maximum, the fill color's hue and
saturation are determined by the tier alone (the palette entry, with the
Ready fallback); the lightness is monotonically non-increasing in the
references value — a partner with more references is never lighter than
one of the same tier under the same dataset maximum; and once the
references value reaches a dataset maximum of at least 1 the shade
saturates at the tier's base lightness. -/
theorem getColorWithShade_spec (level : String) (v1 v2 mx : Int)
    (h12 : v1 ≤ v2) :
    ((getColorWithShade level (v1 : ℚ) (mx : ℚ)).h = ((COLORS level).getD readyColor).h ∧
     (getColorWithShade level (v1 : ℚ) (mx : ℚ)).s = ((COLORS level).getD readyColor).s) ∧
    (getColorWithShade level (v2 : ℚ) (mx : ℚ)).l ≤
      (getColorWithShade level (v1 : ℚ) (mx : ℚ)).l ∧
    (1 ≤ mx → mx ≤ v1 →
      (getColorWithShade level (v1 : ℚ) (mx : ℚ)).l = ((COLORS level).getD readyColor).l) := by
  refine ⟨⟨rfl, rfl⟩, ?_, ?_⟩
  · have h12q : (v1 : ℚ) ≤ (v2 : ℚ) := by exact_mod_cast h12
    have hm : (0 : ℚ) < max (mx : ℚ) 1 := lt_of_lt_of_le one_pos (le_max_right _ _)
    have key : min ((v1 : ℚ) / max (mx : ℚ) 1) 1 ≤ min ((v2 : ℚ) / max (mx : ℚ) 1) 1 := by
      gcongr
    show ((COLORS level).getD readyColor).l + (1 - min ((v2 : ℚ) / max (mx : ℚ) 1) 1) * 12 ≤
      ((COLORS level).getD readyColor).l + (1 - min ((v1 : ℚ) / max (mx : ℚ) 1) 1) * 12
    linarith
  · intro hmx hv
    have hmxq : (1 : ℚ) ≤ (mx : ℚ) := by exact_mod_cast hmx
    have hvq : (mx : ℚ) ≤ (v1 : ℚ) := by exact_mod_cast hv
    have hmpos : (0 : ℚ) < (mx : ℚ) := lt_of_lt_of_le one_pos hmxq
    have hmax : max (mx : ℚ) 1 = (mx : ℚ) := max_eq_left hmxq
    show ((COLORS level).getD readyColor).l + (1 - min ((v1 : ℚ) / max (mx : ℚ) 1) 1) * 12 =
      ((COLORS level).getD readyColor).l
    rw [hmax]
    have hdiv : (1 : ℚ) ≤ (v1 : ℚ) / (mx : ℚ) := (one_le_div hmpos).mpr hvq
    rw [min_eq_right hdiv]
    ring

/-- C6, witness: the Gold palette at references 5 and 7 with dataset
maximum 5. -/
theorem getColorWithShade_spec_w :
    (5 : Int) ≤ 7 ∧ (1 : Int) ≤ 5 ∧ (5 : Int) ≤ 5 ∧
    ((getColorWithShade "Gold" ((5 : Int) : ℚ) ((5 : Int) : ℚ)).h =
        ((COLORS "Gold").getD readyColor).h ∧
      (getColorWithShade "Gold" ((5 : Int) : ℚ) ((5 : Int) : ℚ)).s =
        ((COLORS "Gold").getD readyColor).s) ∧
    (getColorWithShade "Gold" ((7 : Int) : ℚ) ((5 : Int) : ℚ)).l ≤
      (getColorWithShade "Gold" ((5 : Int) : ℚ) ((5 : Int) : ℚ)).l ∧
    (getColorWithShade "Gold" ((5 : Int) : ℚ) ((5 : Int) : ℚ)).l =
      ((COLORS "Gold").getD readyColor).l :=
  ⟨by decide, by decide, by decide,
   (getColorWithShade_spec "Gold" 5 7 5 (by decide)).1,
   (getColorWithShade_spec "Gold" 5 7 5 (by decide)).2.1,
   (getColorWithShade_spec "Gold" 5 7 5 (by decide)).2.2 (by decide) (by decide)⟩

/-! ### C7: tooltip placement -/

/-- C7: for every pointer position and viewport size, the tooltip follows
the cursor at a fixed 16-pixel offset below and to the right, flipping
independently per axis to 16 pixels beyond the opposite side of the
cursor (minus the tooltip extent) when the cursor position plus the
tooltip extent plus 30 exceeds the viewport. -/
theorem tooltipPos_eq_spec (cx cy vw vh : ℚ) :
    tooltipPos cx cy vw vh = tooltipPosSpec cx cy vw vh := rfl

/-! ### C8: determinism of the filter pipeline -/

/-- C8: filtering is deterministic — the visible subset is a function of
exactly the partner list, the search query and the filter state, so two
runs on equal inputs give equal outputs. -/
theorem applyFilters_deterministic (ps₁ ps₂ : List Partner) (q₁ q₂ : String)
    (f₁ f₂ : Filters) (hp : ps₁ = ps₂) (hq : q₁ = q₂) (hf : f₁ = f₂) :
    applyFilters ps₁ q₁ f₁ = applyFilters ps₂ q₂ f₂ := by
  subst hp; subst hq; subst hf; rfl

/-- C8, witness: two identical runs on a concrete input. -/
theorem applyFilters_deterministic_w :
    [pUpper] = [pUpper] ∧ ("ab" : String) = "ab" ∧ fC1 = fC1 ∧
    applyFilters [pUpper] "ab" fC1 = applyFilters [pUpper] "ab" fC1 :=
  ⟨rfl, rfl, rfl,
   applyFilters_deterministic [pUpper] [pUpper] "ab" "ab" fC1 fC1 rfl rfl rfl⟩

/-! ### C9: empty city selection shows nothing -/

/-- C9: for every partner list and every filter state whose selected-city
list is empty, the pipeline's visible subset is empty — the city
criterion is always applied, and membership in the empty list fails even
for a null normalized city. -/
theorem selectedCities_empty_no_partner (ps : List Partner) (q : String)
    (f : Filters) (h : f.selectedCities = []) : applyFilters ps q f = [] := by
  unfold applyFilters cityFilter
  simp [h]

/-- C9, witness: the initial filter state has no selected city, and a
non-empty partner list filters to nothing under it. -/
theorem selectedCities_empty_no_partner_w :
    initialFilters.selectedCities = [] ∧
    applyFilters [pUpper] "" initialFilters = [] :=
  ⟨rfl, selectedCities_empty_no_partner [pUpper] "" initialFilters rfl⟩

/-! ### C10: empty tier selection skips the level criterion -/

/-- C10: when the selected tier list is empty the level criterion is
skipped rather than applied — the level stage returns every list
unchanged — so for partners drawn from the Gold/Silver/Ready tier domain,
deselecting all three tiers produces the same visible subset as selecting
all of them, the opposite of the city filter's empty-selection
behavior. -/
theorem levels_empty_skips (ps : List Partner) (q : String) (f : Filters)
    (hempty : f.levels = [])
    (hdomain : ∀ p ∈ ps, p.level ∈ ["Gold", "Silver", "Ready"]) :
    (∀ l : List Partner, levelFilter f l = l) ∧
    applyFilters ps q f =
      applyFilters ps q { f with levels := ["Gold", "Silver", "Ready"] } := by
  have hskip : ∀ l : List Partner, levelFilter f l = l := by
    intro l; unfold levelFilter; simp [hempty]
  refine ⟨hskip, ?_⟩
  show cityFilter f (refFilter f (levelFilter f (searchFilter q ps))) =
    cityFilter f (refFilter f
      (levelFilter { f with levels := ["Gold", "Silver", "Ready"] } (searchFilter q ps)))
  congr 2
  rw [hskip]
  unfold levelFilter
  simp only [List.length_cons, List.length_nil]
  rw [if_pos (by omega)]
  symm
  apply List.filter_eq_self.mpr
  intro p hp
  have hmem : p ∈ ps := by
    unfold searchFilter at hp
    split at hp
    · exact hp
    · exact List.mem_of_mem_filter hp
  have hlev := hdomain p hmem
  simpa using hlev

/-- C10, witness: a Gold partner under the no-tier-selected filter state. -/
theorem levels_empty_skips_w :
    fNoLevels.levels = [] ∧
    (∀ p ∈ [pUpper], p.level ∈ ["Gold", "Silver", "Ready"]) ∧
    ((∀ l : List Partner, levelFilter fNoLevels l = l) ∧
      applyFilters [pUpper] "" fNoLevels =
        applyFilters [pUpper] "" { fNoLevels with levels := ["Gold", "Silver", "Ready"] }) :=
  ⟨rfl, by decide, levels_empty_skips [pUpper] "" fNoLevels rfl (by decide)⟩

end EEPartners
